import Mathlib

/-!
Verification development for the merged scraper script (Amazon, BestBuy,
Samsung).  The Python source `script.py` is shallowly embedded below:

* pure text manipulation (regexes, filename sanitisation, line selection)
  is translated into executable functions over `List Char` / `String`;
* the HTML parsing library (BeautifulSoup) is the external black-box query
  engine, so a "captured document" is embedded as a record of the query
  results the script actually asks for (the texts of the selected nodes);
* the browser automation is external, so each per-URL interaction is
  embedded as an environment-chosen outcome, and the pipelines are
  functions from those outcomes to the result records plus a trace of
  filesystem/session events;
* the openpyxl workbook is embedded as a list of named sheets, a sheet
  being a list of rows of cells, a cell being `Option String`
  (`none` = empty cell / Python `None`).
-/

set_option autoImplicit false

namespace Scraper

/-! ## Basic text utilities (ASCII fragment of the Python semantics) -/

/-- Python whitespace (`str.strip` default / regex `\s`), ASCII fragment. -/
def isPySpace (c : Char) : Bool :=
  c = ' ' || c = '\t' || c = '\n' || c = '\r' || c = '\x0b' || c = '\x0c'

/-- `str.lower`, ASCII fragment (the script only compares ASCII letters). -/
def lowerChars (cs : List Char) : List Char := cs.map Char.toLower

/-- `str.strip()` with no argument: drop leading and trailing whitespace. -/
def trimChars (cs : List Char) : List Char :=
  ((cs.dropWhile isPySpace).reverse.dropWhile isPySpace).reverse

/-- Python `needle in hay` substring test on character lists. -/
def containsSeq (needle : List Char) : List Char → Bool
  | [] => needle.isEmpty
  | c :: t => needle.isPrefixOf (c :: t) || containsSeq needle t

/-- Python `"$" in line`: a one-character substring test is membership. -/
def hasDollar (cs : List Char) : Bool := cs.any (fun c => c == '$')

/-- Python `"was" in line.lower()`. -/
def wasIn (cs : List Char) : Bool := containsSeq ['w', 'a', 's'] (lowerChars cs)

/-- Python `text.split("\n")` (single-character separator, keeps empties). -/
def splitNl (cs : List Char) : List (List Char) :=
  cs.foldr
    (fun c acc =>
      if c = '\n' then [] :: acc
      else
        match acc with
        | [] => [[c]]
        | g :: gs => (c :: g) :: gs)
    [[]]

/-! ## The price regex `\$\s*[\d,]+\.\d{2}`

`re` scanning is modelled directly: `matchPriceAt` attempts the pattern at
the head of the character list (no backtracking is possible for this
pattern because the character classes `\s`, `[\d,]`, `.` are disjoint);
`searchPriceAux` is `re.search` (leftmost match), `findAllPriceAux` is
`re.findall` (non-overlapping, left to right).  Both use a step-count
argument bounded by the text length, so they stay kernel-computable. -/

def isDigitComma (c : Char) : Bool := c.isDigit || c = ','

/-- Try the price pattern at the start of `cs`; on success return the
matched text and the remaining characters after the match. -/
def matchPriceAt : List Char → Option (List Char × List Char)
  | [] => none
  | c :: cs =>
    if c = '$' then
      let ws := cs.takeWhile isPySpace
      let cs1 := cs.dropWhile isPySpace
      let digs := cs1.takeWhile isDigitComma
      let cs2 := cs1.dropWhile isDigitComma
      if digs.isEmpty then none
      else
        match cs2 with
        | p :: d1 :: d2 :: rest =>
          if p = '.' && d1.isDigit && d2.isDigit then
            some ('$' :: (ws ++ digs ++ ['.', d1, d2]), rest)
          else none
        | _ => none
    else none

/-- `re.search(price_pattern, ·)`: first match, scanning left to right. -/
def searchPriceAux : Nat → List Char → Option String
  | 0, _ => none
  | _ + 1, [] => none
  | fuel + 1, c :: t =>
    match matchPriceAt (c :: t) with
    | some (m, _) => some m.asString
    | none => searchPriceAux fuel t

/-- `re.findall(price_pattern, ·)`: all non-overlapping matches. -/
def findAllPriceAux : Nat → List Char → List String
  | 0, _ => []
  | _ + 1, [] => []
  | fuel + 1, c :: t =>
    match matchPriceAt (c :: t) with
    | some (m, rest) => m.asString :: findAllPriceAux fuel rest
    | none => findAllPriceAux fuel t

def searchPrice (cs : List Char) : Option String := searchPriceAux cs.length cs

def findAllPrice (cs : List Char) : List String := findAllPriceAux cs.length cs

/-! ## The sku regex `sku-([A-Za-z0-9-]+)` (re.IGNORECASE) -/

def isSkuChar (c : Char) : Bool := c.isAlpha || c.isDigit || c = '-'

/-- Try `sku-([A-Za-z0-9-]+)` (case-insensitive literal) at the head of
`cs`; on success return group 1 (maximal run of class characters). -/
def matchSkuAt : List Char → Option String
  | c1 :: c2 :: c3 :: c4 :: rest =>
    if c1.toLower = 's' && c2.toLower = 'k' && c3.toLower = 'u' && c4 = '-' then
      let grp := rest.takeWhile isSkuChar
      if grp.isEmpty then none else some grp.asString
    else none
  | _ => none

/-- `re.search(r"sku-([A-Za-z0-9-]+)", url, re.IGNORECASE)`. -/
def searchSkuAux : Nat → List Char → Option String
  | 0, _ => none
  | _ + 1, [] => none
  | fuel + 1, c :: t =>
    match matchSkuAt (c :: t) with
    | some g => some g
    | none => searchSkuAux fuel t

/-- `extract_sku_from_url`: sku value from the URL, or `None`. -/
def extract_sku_from_url (url : String) : Option String :=
  if url = "" then none
  else searchSkuAux url.data.length url.data

/-! ## `sanitize_filename` (with `urllib.parse.quote_plus`) -/

/-- UTF-8 encoding of one character, as byte values. -/
def utf8Bytes (c : Char) : List Nat :=
  let n := c.toNat
  if n < 0x80 then [n]
  else if n < 0x800 then [0xC0 + n / 0x40, 0x80 + n % 0x40]
  else if n < 0x10000 then
    [0xE0 + n / 0x1000, 0x80 + (n / 0x40) % 0x40, 0x80 + n % 0x40]
  else
    [0xF0 + n / 0x40000, 0x80 + (n / 0x1000) % 0x40,
     0x80 + (n / 0x40) % 0x40, 0x80 + n % 0x40]

/-- The bytes `quote_plus` leaves unescaped: ASCII letters, digits,
`_`, `.`, `-`, `~`. -/
def isQuoteSafe (b : Nat) : Bool :=
  (0x41 ≤ b && b ≤ 0x5A) || (0x61 ≤ b && b ≤ 0x7A) || (0x30 ≤ b && b ≤ 0x39)
    || b = 0x5F || b = 0x2E || b = 0x2D || b = 0x7E

def hexDigitChar (n : Nat) : Char :=
  if n < 10 then Char.ofNat ('0'.toNat + n) else Char.ofNat ('A'.toNat + n - 10)

/-- One byte under `quote_plus`: space becomes `+`, safe bytes pass
through, everything else becomes `%XX`. -/
def quoteByte (b : Nat) : List Char :=
  if b = 0x20 then ['+']
  else if isQuoteSafe b then [Char.ofNat b]
  else ['%', hexDigitChar (b / 16), hexDigitChar (b % 16)]

/-- `urllib.parse.quote_plus(s, safe="")`. -/
def quote_plus (s : String) : String :=
  ((s.data.flatMap utf8Bytes).flatMap quoteByte).asString

/-- Characters kept by `re.sub(r'[^A-Za-z0-9._-]', '_', ·)`. -/
def isFilenameChar (c : Char) : Bool :=
  c.isAlpha || c.isDigit || c = '.' || c = '_' || c = '-'

/-- `sanitize_filename(s, maxlen)`. -/
def sanitize_filename (s : String) (maxlen : Nat) : String :=
  if s = "" then "file"
  else
    (((quote_plus s).data.map (fun c => if isFilenameChar c then c else '_')).take
      maxlen).asString

/-! ## Site extractors

A captured document is embedded as the record of BeautifulSoup query
results the parser asks for.  Python values of type `str | None` are
embedded as `Option String` (`none` = Python `None`). -/

/-- Query results `parse_amazon_html` reads from a captured Amazon page:
the raw `get_text()` of the first span of each price class, and, when a
`<th>` whose text contains "item model number" exists, the stripped text
of its next `<td>` sibling (inner `none` = no such `<td>`). -/
structure AmazonDoc where
  priceWhole : Option String
  priceFraction : Option String
  priceSymbol : Option String
  modelTh : Option (Option String)

def strTrim (s : String) : String := (trimChars s.data).asString

/-- The pure part of `parse_amazon_html`, applied to a present document:
returns the `(price, model_number)` pair. -/
def parseAmazonDoc (d : AmazonDoc) : Option String × Option String :=
  let price :=
    match d.priceWhole, d.priceFraction with
    | some w, some f =>
      let symbolText := match d.priceSymbol with
        | some sy => strTrim sy
        | none => ""
      some (symbolText ++ strTrim w ++ "." ++ strTrim f)
    | _, _ => none
  let model :=
    match d.modelTh with
    | some (some td) => some td
    | _ => none
  (price, model)

/-- `parse_amazon_html(path)`: `none` is a path whose file is absent
(the function prints an error and returns `(None, None)`). -/
def parse_amazon_html (file : Option AmazonDoc) : Option String × Option String :=
  match file with
  | none => (none, none)
  | some d => parseAmazonDoc d

/-- Query results `parse_bestbuy_html` reads: the stripped text of
`[data-testid="price-block-customer-price"] span` and of
`.disclaimer .inline-block`, when those selectors match. -/
structure BestBuyDoc where
  priceElement : Option String
  modelElement : Option String

/-- The pure part of `parse_bestbuy_html` on a present document.  Both
results are always strings (the "not found" sentinels stand in for
missing markers); as Python values they are embedded `some`-wrapped. -/
def parseBestbuyDoc (d : BestBuyDoc) : Option String × Option String :=
  let price :=
    match d.priceElement with
    | some t => t
    | none => "Price not found"
  let model :=
    match d.modelElement with
    | some t => strTrim (t.replace "Model:" "")
    | none => "Model number not found"
  (some price, some model)

/-- `parse_bestbuy_html(path)`: `none` is a path whose file is absent
(the function returns the two sentinel strings). -/
def parse_bestbuy_html (file : Option BestBuyDoc) : Option String × Option String :=
  match file with
  | none => (some "Price not found", some "Model number not found")
  | some d => parseBestbuyDoc d

/-- One `role="radio"` element inside `#device_info`: its
`aria-checked` attribute, its plain `get_text()` (used for the "512"
test) and its `get_text("\n", strip=True)` (used for price extraction). -/
structure RadioOption where
  ariaChecked : Option String
  text : String
  textLines : String

/-- A captured Samsung page: `none` when `find(id="device_info")` finds
nothing, else the list of `role="radio"` descendants. -/
structure SamsungDoc where
  deviceInfo : Option (List RadioOption)

/-- Radio selection in `extract_price`: first `aria-checked="true"`,
else the first option whose text mentions "512". -/
def chooseRadio (radios : List RadioOption) : Option RadioOption :=
  match radios.find? (fun r => r.ariaChecked == some "true") with
  | some r => some r
  | none => radios.find? (fun r => containsSeq ['5', '1', '2'] r.text.data)

/-- The body of the per-line loop in `extract_price`: for a line with a
`$` and without "was" (case-insensitive), the first price match. -/
def lineSelect (l : List Char) : Option String :=
  if hasDollar l && !wasIn l then searchPrice l else none

/-- A line that makes the loop in `extract_price` stop: it holds a full
dollar-amount match and does not contain "was". -/
def qualifiesLine (l : List Char) : Bool :=
  (searchPrice l).isSome && !wasIn l

/-- Price selection from the chosen option's `get_text("\n", strip=True)`
text: the first qualifying line's match, else the last match anywhere in
the text, else `None`.  (A match is a non-empty string, so Python's
`or` chaining coincides with `Option` chaining.) -/
def extractFromText (text : String) : Option String :=
  let cs := text.data
  let prices := findAllPrice cs
  let selected := (splitNl cs).findSome? lineSelect
  match selected with
  | some s => some s
  | none => prices.getLast?

/-- The pure part of `extract_price` on a present document. -/
def extractPriceDoc (d : SamsungDoc) : Option String :=
  match d.deviceInfo with
  | none => none
  | some radios =>
    match chooseRadio radios with
    | none => none
    | some t => extractFromText t.textLines

/-- `extract_price(filename)`: `none` is a path whose file is absent
(the function prints an error and returns `None`). -/
def extract_price (file : Option SamsungDoc) : Option String :=
  match file with
  | none => none
  | some d => extractPriceDoc d

/-! ## Site pipelines

The browser engine is external: for each URL the environment chooses an
outcome — a successful capture (carrying the parse of the captured
document), the Samsung-specific `#device_info` timeout, or an exception.
A pipeline run returns the list of per-URL result records (Python dicts,
embedded as key-ordered association lists over `Option String`), plus a
trace of the filesystem/session side effects it performs.  An exception
outcome stands for a failure at any point of the per-URL `try` block; the
record then has `file = None` and no capture event is recorded. -/

/-- A per-URL result record: a Python dict in insertion order. -/
abbrev ResultRecord := List (String × Option String)

/-- Observable filesystem side effects of a pipeline run. -/
inductive Event where
  | loadSession (path : String)
  | saveSession (path : String)
  | saveHtml (path : String)
  deriving DecidableEq

def isSessionEvent : Event → Bool
  | .loadSession _ => true
  | .saveSession _ => true
  | .saveHtml _ => false

def isSessionSave : Event → Bool
  | .saveSession _ => true
  | _ => false

/-- Environment outcome for one Amazon URL. -/
inductive AmazonOutcome where
  | ok (doc : AmazonDoc)
  | err (msg : String)

/-- `os.path.join(output_dir, f"amazon_{idx}_{safe_name}.html")` with
`safe_name = sanitize_filename(url)[:120]`. -/
def amazonFileName (outputDir : String) (idx : Nat) (url : String) : String :=
  outputDir ++ "/amazon_" ++ Nat.repr idx ++ "_"
    ++ ((sanitize_filename url 200).data.take 120).asString ++ ".html"

def amazonRecord (outputDir : String) (idx : Nat) (url : String) :
    AmazonOutcome → ResultRecord
  | .ok doc =>
    let pm := parseAmazonDoc doc
    [("url", some url), ("file", some (amazonFileName outputDir idx url)),
     ("price", pm.1), ("model", pm.2), ("status", some "ok")]
  | .err msg =>
    [("url", some url), ("file", none), ("price", none), ("model", none),
     ("status", some ("error: " ++ msg))]

def amazonUrlEvents (outputDir : String) (idx : Nat) (url : String) :
    AmazonOutcome → List Event
  | .ok _ => [.saveHtml (amazonFileName outputDir idx url)]
  | .err _ => []

/-- The per-URL loop of `save_amazon_htmls` (`enumerate(urls, start=k)`). -/
def amazonProcess (outputDir : String) (k : Nat) :
    List (String × AmazonOutcome) → List ResultRecord × List Event
  | [] => ([], [])
  | (url, oc) :: rest =>
    let tailRes := amazonProcess outputDir (k + 1) rest
    (amazonRecord outputDir k url oc :: tailRes.1,
     amazonUrlEvents outputDir k url oc ++ tailRes.2)

/-- `save_amazon_htmls`: loads the session file when it exists, runs the
per-URL loop, then writes the session state once after all URLs. -/
def save_amazon_htmls (urls : List (String × AmazonOutcome))
    (outputDir cookiesFile : String) (cookiesExists : Bool) :
    List ResultRecord × List Event :=
  let body := amazonProcess outputDir 1 urls
  (body.1,
   (if cookiesExists then [Event.loadSession cookiesFile] else [])
     ++ body.2 ++ [Event.saveSession cookiesFile])

/-- Environment outcome for one BestBuy URL. -/
inductive BestBuyOutcome where
  | ok (doc : BestBuyDoc)
  | err (msg : String)

def bestbuyFileName (outputDir : String) (idx : Nat) (url : String) : String :=
  outputDir ++ "/bestbuy_" ++ Nat.repr idx ++ "_"
    ++ ((sanitize_filename url 200).data.take 120).asString ++ ".html"

def bestbuyRecord (outputDir : String) (idx : Nat) (url : String) :
    BestBuyOutcome → ResultRecord
  | .ok doc =>
    let pm := parseBestbuyDoc doc
    [("url", some url), ("file", some (bestbuyFileName outputDir idx url)),
     ("price", pm.1), ("model", pm.2), ("status", some "ok")]
  | .err msg =>
    [("url", some url), ("file", none), ("price", none), ("model", none),
     ("status", some ("error: " ++ msg))]

def bestbuyUrlEvents (outputDir : String) (idx : Nat) (url : String) :
    BestBuyOutcome → List Event
  | .ok _ => [.saveHtml (bestbuyFileName outputDir idx url)]
  | .err _ => []

def bestbuyProcess (outputDir : String) (k : Nat) :
    List (String × BestBuyOutcome) → List ResultRecord × List Event
  | [] => ([], [])
  | (url, oc) :: rest =>
    let tailRes := bestbuyProcess outputDir (k + 1) rest
    (bestbuyRecord outputDir k url oc :: tailRes.1,
     bestbuyUrlEvents outputDir k url oc ++ tailRes.2)

/-- `save_bestbuy_htmls`: same session handling as the Amazon pipeline. -/
def save_bestbuy_htmls (urls : List (String × BestBuyOutcome))
    (outputDir cookiesFile : String) (cookiesExists : Bool) :
    List ResultRecord × List Event :=
  let body := bestbuyProcess outputDir 1 urls
  (body.1,
   (if cookiesExists then [Event.loadSession cookiesFile] else [])
     ++ body.2 ++ [Event.saveSession cookiesFile])

/-- Environment outcome for one Samsung URL: a full capture, the
`#device_info` wait timing out (the page content is still captured), or
an exception. -/
inductive SamsungOutcome where
  | ok (doc : SamsungDoc)
  | noDeviceInfo
  | err (msg : String)

/-- `os.path.join(output_dir, f"samsung_{idx}_{safe_name}.html")` with
`safe_name = sanitize_filename(url)` (no extra truncation here). -/
def samsungFileName (outputDir : String) (idx : Nat) (url : String) : String :=
  outputDir ++ "/samsung_" ++ Nat.repr idx ++ "_" ++ sanitize_filename url 200
    ++ ".html"

def samsungRecord (outputDir : String) (idx : Nat) (url : String) :
    SamsungOutcome → ResultRecord
  | .ok doc =>
    [("url", some url), ("file", some (samsungFileName outputDir idx url)),
     ("price", extractPriceDoc doc), ("sku", extract_sku_from_url url),
     ("status", some "ok")]
  | .noDeviceInfo =>
    [("url", some url), ("file", some (samsungFileName outputDir idx url)),
     ("price", none), ("sku", extract_sku_from_url url),
     ("status", some "partial: no device_info")]
  | .err msg =>
    [("url", some url), ("file", none), ("price", none), ("sku", none),
     ("status", some ("error: " ++ msg))]

def samsungUrlEvents (outputDir : String) (idx : Nat) (url : String) :
    SamsungOutcome → List Event
  | .ok _ => [.saveHtml (samsungFileName outputDir idx url)]
  | .noDeviceInfo => [.saveHtml (samsungFileName outputDir idx url)]
  | .err _ => []

def samsungProcess (outputDir : String) (k : Nat) :
    List (String × SamsungOutcome) → List ResultRecord × List Event
  | [] => ([], [])
  | (url, oc) :: rest =>
    let tailRes := samsungProcess outputDir (k + 1) rest
    (samsungRecord outputDir k url oc :: tailRes.1,
     samsungUrlEvents outputDir k url oc ++ tailRes.2)

/-- `save_samsung_htmls`: the session-state load at start and the write
at the end are both commented out in the source, so the run neither
loads nor persists session state; the `cookiesFile`/`cookiesExists`
parameters are accepted but unused. -/
def save_samsung_htmls (urls : List (String × SamsungOutcome))
    (outputDir cookiesFile : String) (cookiesExists : Bool) :
    List ResultRecord × List Event :=
  let _ := cookiesFile
  let _ := cookiesExists
  let body := samsungProcess outputDir 1 urls
  (body.1, body.2)

/-! ## Result flattening (`main`) -/

/-- One site's contribution to the flat dict:
`f"{site}_{i}_{k}"` for `i, item in enumerate(res, start=k)`. -/
def flattenSite (site : String) (k : Nat) : List ResultRecord →
    List (String × Option String)
  | [] => []
  | r :: rest =>
    r.map (fun kv => (site ++ "_" ++ Nat.repr k ++ "_" ++ kv.1, kv.2))
      ++ flattenSite site (k + 1) rest

/-- The flat run record built in `main`: `run_timestamp` first (the
timestamp string gets `"Z"` appended), then all three sites' records in
order.  All generated keys are distinct by construction (distinct
site/index/field triples), so dict insertion is list concatenation. -/
def flattenResults (ts : String) (am bb sam : List ResultRecord) :
    List (String × Option String) :=
  ("run_timestamp", some (ts ++ "Z"))
    :: (flattenSite "amazon" 1 am ++ flattenSite "bestbuy" 1 bb
        ++ flattenSite "samsung" 1 sam)

/-! ## The Excel workbook (openpyxl, black-box tabular store)

A sheet is a list of rows, a row a list of cells, a cell
`Option String` (`none` = empty cell / Python `None`; the values this
script stores are all `str | None`, so `_to_jsonable` acts as the
identity on them).  A workbook is a list of named sheets in order;
openpyxl keeps sheet names unique and `wb.active` is the first sheet for
workbooks produced by this script.  Reading a cell outside the populated
area yields `None`; `ws.max_row` is the number of populated rows. -/

abbrev Cell := Option String
abbrev SheetRow := List Cell
abbrev Grid := List SheetRow
abbrev Workbook := List (String × Grid)

/-- `data.get(k)` on a dict embedded as a key-ordered association list
(collapsing "key absent" and "value `None`" to `none`, as the script's
uses do). -/
def dictGet (data : ResultRecord) (k : String) : Option String :=
  match data.find? (fun kv => kv.1 == k) with
  | some kv => kv.2
  | none => none

/-- `_to_jsonable`: identity on `str` and `None` (the only value shapes
this script stores; `dict`/`list`/`tuple` would be JSON-serialised). -/
def to_jsonable (v : Option String) : Option String := v

/-- `ws.cell(row=r, column=c).value`, 1-indexed, `None` out of range. -/
def cellAt (g : Grid) (r c : Nat) : Cell := (g.getD (r - 1) []).getD (c - 1) none

/-- A token is "blank" when it is `None` or its stripped lowercase form
is `"blank column"`. -/
def isBlankToken (tok : Option String) : Bool :=
  match tok with
  | none => true
  | some s => lowerChars (trimChars s.data) == "blank column".data

/-- `openpyxl.utils.column_index_from_string` on an upper-cased token:
valid for 1–3 letters `A`–`Z` up to `ZZZ` (18278), else an error
(`none`). -/
def colIndexFromChars (cs : List Char) : Option Nat :=
  if cs.isEmpty || !cs.all (fun c => 'A' ≤ c && c ≤ 'Z') then none
  else
    let n := cs.foldl (fun acc c => acc * 26 + (c.toNat - 'A'.toNat + 1)) 0
    if n ≤ 18278 then some n else none

/-- The value the projection loop writes at target row `r` for one
token: blank tokens and invalid references give an empty cell, a valid
reference copies the source cell in that column. -/
def projectedCell (src : Grid) (r : Nat) (tok : Option String) : Cell :=
  if isBlankToken tok then none
  else
    match tok with
    | none => none
    | some s =>
      match colIndexFromChars ((trimChars s.data).map Char.toUpper) with
      | none => none
      | some c => cellAt src r c

/-- The grid of the target sheet built by the projection loop: one
column per token (every token advances the target column pointer by
one), rows `1 .. src.max_row`. -/
def projectGrid (refs : List (Option String)) (src : Grid) : Grid :=
  (List.range src.length).map (fun ri => refs.map (projectedCell src (ri + 1)))

/-- The shared projection body: resolve the source sheet (the first
sheet, read before any deletion — openpyxl keeps the object readable),
delete an existing "converted" sheet, then create "converted" (appended
last) holding the projected grid.  An empty workbook cannot occur in
openpyxl (the Python code would raise). -/
def projectConverted (wb : Workbook) (refs : List (Option String)) : Workbook :=
  match wb with
  | [] => []
  | (n0, g0) :: _ =>
    let _ := n0
    let wb1 :=
      if wb.any (fun p => p.1 == "converted") then
        wb.eraseP (fun p => p.1 == "converted")
      else wb
    wb1 ++ [("converted", projectGrid refs g0)]

/-- The hard-coded 28-token column layout in `save_dict_to_excel_row`. -/
def columnRefs28 : List (Option String) :=
  [some "a", some "d", some "ar", some "x", some "e", some "as", some "y",
   some "blank column",
   some "i", some "aw", some "ac", some "j", some "ax", some "ad",
   some "blank column",
   some "n", some "bb", some "ah", some "o", some "bc", some "ai",
   some "blank column",
   some "s", some "bg", some "am", some "t", some "bh", some "an"]

/-- The header-extension and row-append step of `save_dict_to_excel_row`
on the active sheet: read the first row as the existing headers, append
the record's unseen keys to it (in record key order), rewrite the header
row, then append the new data row in header order. -/
def appendRowToSheet (data : ResultRecord) (rows : Grid) : Grid :=
  let existingHeaders := rows.headD []
  let newKeys :=
    (data.map Prod.fst).filter (fun k => !(existingHeaders.contains (some k)))
  let headers := existingHeaders ++ newKeys.map some
  let newRow := headers.map (fun h =>
    match h with
    | some k => to_jsonable (dictGet data k)
    | none => none)
  headers :: (rows.tail ++ [newRow])

/-- `save_dict_to_excel_row(data, path)`: the file state before the call
is `none` (absent) or `some wb`; the result is the saved workbook.  A
new file gets openpyxl's default sheet "Sheet" with the header row and
one data row.  An existing file gets the row appended to its active
(first) sheet and then the hard-coded "converted" projection rebuilt. -/
def save_dict_to_excel_row (data : ResultRecord) (file : Option Workbook) :
    Workbook :=
  match file with
  | none =>
    let headers := data.map Prod.fst
    [("Sheet", [headers.map some,
                headers.map (fun k => to_jsonable (dictGet data k))])]
  | some wb =>
    match wb with
    | [] => []
    | (name, rows) :: rest =>
      projectConverted ((name, appendRowToSheet data rows) :: rest) columnRefs28

/-- `copy_columns_by_references(path, refs, ...)`: `none` models the
absent-file case, in which the Python function raises
`FileNotFoundError`; on a present file it runs the same projection body
and saves. -/
def copy_columns_by_references (file : Option Workbook)
    (refs : List (Option String)) : Option Workbook :=
  file.map (fun wb => projectConverted wb refs)

def countNamed (wb : Workbook) (name : String) : Nat :=
  (wb.filter (fun p => p.1 == name)).length

def lookupSheet (wb : Workbook) (name : String) : Option Grid :=
  (wb.find? (fun p => p.1 == name)).map Prod.snd

/-- The rows of the active (first) sheet. -/
def mainSheetRows (wb : Workbook) : Grid :=
  match wb.head? with
  | some p => p.2
  | none => []

/-- The header row of the table. -/
def tableHeader (wb : Workbook) : SheetRow := (mainSheetRows wb).headD []

/-- The data rows of the table (everything below the header row). -/
def dataRows (wb : Workbook) : Grid := (mainSheetRows wb).tail

def dataRowCount (wb : Workbook) : Nat := (dataRows wb).length

/-! ## Lemmas about the projection body -/

/-- The conditional deletion of the "converted" sheet. -/
def eraseConvertedIfAny (wb : Workbook) : Workbook :=
  if wb.any (fun p => p.1 == "converted") then
    wb.eraseP (fun p => p.1 == "converted")
  else wb

theorem projectConverted_cons (n : String) (g : Grid) (rest : Workbook)
    (refs : List (Option String)) (hn : (n == "converted") = false) :
    projectConverted ((n, g) :: rest) refs
      = (n, g) :: (eraseConvertedIfAny rest ++ [("converted", projectGrid refs g)]) := by
  unfold projectConverted eraseConvertedIfAny
  cases hany : rest.any (fun p => p.1 == "converted") with
  | true => simp [List.any_cons, hn, hany, List.eraseP_cons]
  | false => simp [List.any_cons, hn, hany]

theorem length_filter_eraseP {α : Type} (p : α → Bool) (l : List α)
    (h : l.any p = true) :
    ((l.eraseP p).filter p).length + 1 = (l.filter p).length := by
  induction l with
  | nil => simp at h
  | cons a t ih =>
    cases ha : p a with
    | true => simp [List.eraseP_cons, ha, List.filter_cons]
    | false =>
      have h' : t.any p = true := by simpa [List.any_cons, ha] using h
      simp [List.eraseP_cons, ha, List.filter_cons, ih h']

theorem countNamed_eraseConvertedIfAny (rest : Workbook)
    (hc : countNamed rest "converted" ≤ 1) :
    countNamed (eraseConvertedIfAny rest) "converted" = 0 := by
  unfold eraseConvertedIfAny
  cases hany : rest.any (fun p => p.1 == "converted") with
  | true =>
    have h1 := length_filter_eraseP (fun p => p.1 == "converted") rest hany
    unfold countNamed at *
    simp only [hany, if_true]
    omega
  | false =>
    have hnil : rest.filter (fun p => p.1 == "converted") = [] := by
      rw [List.filter_eq_nil_iff]
      intro x hx hpx
      have htrue : rest.any (fun p => p.1 == "converted") = true :=
        List.any_eq_true.mpr ⟨x, hx, hpx⟩
      rw [hany] at htrue
      exact Bool.false_ne_true htrue
    simp [hany, countNamed, hnil]

theorem countNamed_append (l1 l2 : Workbook) (name : String) :
    countNamed (l1 ++ l2) name = countNamed l1 name + countNamed l2 name := by
  simp [countNamed, List.filter_append]

theorem countNamed_projectConverted (n : String) (g : Grid) (rest : Workbook)
    (refs : List (Option String)) (hn : (n == "converted") = false)
    (hc : countNamed rest "converted" ≤ 1) :
    countNamed (projectConverted ((n, g) :: rest) refs) "converted" = 1 := by
  rw [projectConverted_cons n g rest refs hn]
  have h0 := countNamed_eraseConvertedIfAny rest hc
  unfold countNamed at h0 ⊢
  simp only [List.filter_cons, List.filter_append, hn]
  simp [h0]

theorem lookupSheet_projectConverted (n : String) (g : Grid) (rest : Workbook)
    (refs : List (Option String)) (hn : (n == "converted") = false)
    (hc : countNamed rest "converted" ≤ 1) :
    lookupSheet (projectConverted ((n, g) :: rest) refs) "converted"
      = some (projectGrid refs g) := by
  rw [projectConverted_cons n g rest refs hn]
  have h0 := countNamed_eraseConvertedIfAny rest hc
  have hnone : (eraseConvertedIfAny rest).find? (fun p => p.1 == "converted") = none := by
    rw [List.find?_eq_none]
    intro x hx hpx
    have hmem : x ∈ (eraseConvertedIfAny rest).filter (fun p => p.1 == "converted") :=
      List.mem_filter.mpr ⟨hx, hpx⟩
    have hne : (eraseConvertedIfAny rest).filter (fun p => p.1 == "converted") ≠ [] :=
      List.ne_nil_of_mem hmem
    have hlen := List.length_pos.mpr hne
    unfold countNamed at h0
    omega
  unfold lookupSheet
  rw [List.find?_cons_of_neg _ (by simp [hn]), List.find?_append, hnone]
  simp

theorem countNamed_projectConverted_tail (g : Grid) (rest : Workbook)
    (refs : List (Option String))
    (hc : countNamed rest "converted" ≤ 1) :
    countNamed (eraseConvertedIfAny rest ++ [("converted", projectGrid refs g)])
      "converted" = 1 := by
  have h0 := countNamed_eraseConvertedIfAny rest hc
  rw [countNamed_append, h0]
  simp [countNamed]

/-! ## Claim C1 -/

/-- C1: appending a flattened record `data` through the Tabular Append
Store to an existing table whose active sheet has header row `H` yields
a table whose header is `H` followed by exactly the keys of `data` not
already in `H` (in `data`'s key order, `H` untouched), and whose
data-row count grew by one. -/
theorem save_row_header_extension_rowcount (data : ResultRecord) (name : String)
    (H : SheetRow) (tl : Grid) (rest : Workbook) (hname : name ≠ "converted") :
    tableHeader (save_dict_to_excel_row data (some ((name, H :: tl) :: rest)))
      = H ++ ((data.map Prod.fst).filter
          (fun k => !(H.contains (some k)))).map some
    ∧ dataRowCount (save_dict_to_excel_row data (some ((name, H :: tl) :: rest)))
      = tl.length + 1 := by
  have hb : (name == "converted") = false := beq_eq_false_iff_ne.mpr hname
  show tableHeader (projectConverted
        ((name, appendRowToSheet data (H :: tl)) :: rest) columnRefs28) = _
    ∧ dataRowCount (projectConverted
        ((name, appendRowToSheet data (H :: tl)) :: rest) columnRefs28) = _
  rw [projectConverted_cons _ _ _ _ hb]
  constructor
  · simp [tableHeader, mainSheetRows, appendRowToSheet]
  · simp [dataRowCount, dataRows, mainSheetRows, appendRowToSheet]

theorem save_row_header_extension_rowcount_witness :
    tableHeader (save_dict_to_excel_row
        [("run_timestamp", some "t0Z"), ("amazon_1_url", some "u")]
        (some [("Sheet", [[some "run_timestamp"], [some "t1Z"]])]))
      = [some "run_timestamp", some "amazon_1_url"]
    ∧ dataRowCount (save_dict_to_excel_row
        [("run_timestamp", some "t0Z"), ("amazon_1_url", some "u")]
        (some [("Sheet", [[some "run_timestamp"], [some "t1Z"]])]))
      = 2 := by
  have h := save_row_header_extension_rowcount
    [("run_timestamp", some "t0Z"), ("amazon_1_url", some "u")]
    "Sheet" [some "run_timestamp"] [[some "t1Z"]] [] (by decide)
  exact ⟨h.1.trans (by decide), h.2⟩

/-! ## Claim C2 -/

/-- C2: appends are append-only — after appending `data1` and then
`data2`, the data rows of the first result are an unchanged prefix of
the data rows of the second (the row written for `data1` is never
rewritten), and the header of the first result is a prefix of the header
of the second (monotonically non-shrinking, positions never
renumbered). -/
theorem save_row_append_only (data1 data2 : ResultRecord) (name : String)
    (H : SheetRow) (tl : Grid) (rest : Workbook) (hname : name ≠ "converted") :
    dataRows (save_dict_to_excel_row data1 (some ((name, H :: tl) :: rest)))
      <+: dataRows (save_dict_to_excel_row data2
        (some (save_dict_to_excel_row data1 (some ((name, H :: tl) :: rest)))))
    ∧ dataRowCount (save_dict_to_excel_row data2
        (some (save_dict_to_excel_row data1 (some ((name, H :: tl) :: rest)))))
      = dataRowCount (save_dict_to_excel_row data1
          (some ((name, H :: tl) :: rest))) + 1
    ∧ tableHeader (save_dict_to_excel_row data1 (some ((name, H :: tl) :: rest)))
      <+: tableHeader (save_dict_to_excel_row data2
        (some (save_dict_to_excel_row data1 (some ((name, H :: tl) :: rest))))) := by
  have hb : (name == "converted") = false := beq_eq_false_iff_ne.mpr hname
  have h1 : save_dict_to_excel_row data1 (some ((name, H :: tl) :: rest))
      = (name, appendRowToSheet data1 (H :: tl))
        :: (eraseConvertedIfAny rest
            ++ [("converted",
                 projectGrid columnRefs28 (appendRowToSheet data1 (H :: tl)))]) :=
    projectConverted_cons name _ rest columnRefs28 hb
  rw [h1]
  have h2 : save_dict_to_excel_row data2
      (some ((name, appendRowToSheet data1 (H :: tl))
        :: (eraseConvertedIfAny rest
            ++ [("converted",
                 projectGrid columnRefs28 (appendRowToSheet data1 (H :: tl)))])))
      = (name, appendRowToSheet data2 (appendRowToSheet data1 (H :: tl)))
        :: (eraseConvertedIfAny (eraseConvertedIfAny rest
              ++ [("converted",
                   projectGrid columnRefs28 (appendRowToSheet data1 (H :: tl)))])
            ++ [("converted", projectGrid columnRefs28
                  (appendRowToSheet data2 (appendRowToSheet data1 (H :: tl))))]) :=
    projectConverted_cons name _ _ columnRefs28 hb
  rw [h2]
  refine ⟨?_, ?_, ?_⟩
  · simp only [dataRows, mainSheetRows, appendRowToSheet]
    simp
  · simp [dataRowCount, dataRows, mainSheetRows, appendRowToSheet]
  · simp only [tableHeader, mainSheetRows, appendRowToSheet]
    simp

theorem save_row_append_only_witness :
    dataRows (save_dict_to_excel_row [("a", some "1")]
        (some [("Sheet", [[some "a"], [some "0"]])]))
      <+: dataRows (save_dict_to_excel_row [("b", some "2")]
        (some (save_dict_to_excel_row [("a", some "1")]
          (some [("Sheet", [[some "a"], [some "0"]])]))))
    ∧ dataRowCount (save_dict_to_excel_row [("b", some "2")]
        (some (save_dict_to_excel_row [("a", some "1")]
          (some [("Sheet", [[some "a"], [some "0"]])]))))
      = dataRowCount (save_dict_to_excel_row [("a", some "1")]
          (some [("Sheet", [[some "a"], [some "0"]])])) + 1
    ∧ tableHeader (save_dict_to_excel_row [("a", some "1")]
        (some [("Sheet", [[some "a"], [some "0"]])]))
      <+: tableHeader (save_dict_to_excel_row [("b", some "2")]
        (some (save_dict_to_excel_row [("a", some "1")]
          (some [("Sheet", [[some "a"], [some "0"]])])))) :=
  save_row_append_only [("a", some "1")] [("b", some "2")] "Sheet"
    [some "a"] [[some "0"]] [] (by decide)

/-! ## Claim C7 -/

/-- C7: the Column Projector is idempotent — run against a workbook
whose source (first) sheet is not named "converted", it produces the
projected sheet `projectGrid refs g`; running it again on the result
(unchanged source sheet) produces the identical projected sheet, and
after each invocation the workbook holds exactly one sheet named
"converted". -/
theorem copy_columns_idempotent (n : String) (g : Grid) (rest : Workbook)
    (refs : List (Option String)) (hn : n ≠ "converted")
    (hc : countNamed rest "converted" ≤ 1) :
    copy_columns_by_references (some ((n, g) :: rest)) refs
      = some (projectConverted ((n, g) :: rest) refs)
    ∧ lookupSheet (projectConverted ((n, g) :: rest) refs) "converted"
      = some (projectGrid refs g)
    ∧ countNamed (projectConverted ((n, g) :: rest) refs) "converted" = 1
    ∧ copy_columns_by_references
        (some (projectConverted ((n, g) :: rest) refs)) refs
      = some (projectConverted (projectConverted ((n, g) :: rest) refs) refs)
    ∧ lookupSheet (projectConverted (projectConverted ((n, g) :: rest) refs) refs)
        "converted" = some (projectGrid refs g)
    ∧ countNamed (projectConverted (projectConverted ((n, g) :: rest) refs) refs)
        "converted" = 1 := by
  have hb : (n == "converted") = false := beq_eq_false_iff_ne.mpr hn
  have hrest2 : countNamed (eraseConvertedIfAny rest
      ++ [("converted", projectGrid refs g)]) "converted" = 1 :=
    countNamed_projectConverted_tail g rest refs hc
  refine ⟨rfl, lookupSheet_projectConverted n g rest refs hb hc,
    countNamed_projectConverted n g rest refs hb hc, rfl, ?_, ?_⟩
  · rw [projectConverted_cons _ _ _ _ hb]
    exact lookupSheet_projectConverted n g _ refs hb (le_of_eq hrest2)
  · rw [projectConverted_cons _ _ _ _ hb]
    exact countNamed_projectConverted n g _ refs hb (le_of_eq hrest2)

theorem copy_columns_idempotent_witness :
    copy_columns_by_references
        (some [("Sheet", [[some "x", some "y"], [some "1", some "2"]])])
        [some "b", some "blank column", some "a"]
      = some (projectConverted [("Sheet", [[some "x", some "y"], [some "1", some "2"]])]
          [some "b", some "blank column", some "a"])
    ∧ lookupSheet (projectConverted
        [("Sheet", [[some "x", some "y"], [some "1", some "2"]])]
        [some "b", some "blank column", some "a"]) "converted"
      = some (projectGrid [some "b", some "blank column", some "a"]
          [[some "x", some "y"], [some "1", some "2"]])
    ∧ countNamed (projectConverted
        [("Sheet", [[some "x", some "y"], [some "1", some "2"]])]
        [some "b", some "blank column", some "a"]) "converted" = 1
    ∧ copy_columns_by_references
        (some (projectConverted
          [("Sheet", [[some "x", some "y"], [some "1", some "2"]])]
          [some "b", some "blank column", some "a"]))
        [some "b", some "blank column", some "a"]
      = some (projectConverted (projectConverted
          [("Sheet", [[some "x", some "y"], [some "1", some "2"]])]
          [some "b", some "blank column", some "a"])
          [some "b", some "blank column", some "a"])
    ∧ lookupSheet (projectConverted (projectConverted
        [("Sheet", [[some "x", some "y"], [some "1", some "2"]])]
        [some "b", some "blank column", some "a"])
        [some "b", some "blank column", some "a"]) "converted"
      = some (projectGrid [some "b", some "blank column", some "a"]
          [[some "x", some "y"], [some "1", some "2"]])
    ∧ countNamed (projectConverted (projectConverted
        [("Sheet", [[some "x", some "y"], [some "1", some "2"]])]
        [some "b", some "blank column", some "a"])
        [some "b", some "blank column", some "a"]) "converted" = 1 :=
  copy_columns_idempotent "Sheet" [[some "x", some "y"], [some "1", some "2"]] []
    [some "b", some "blank column", some "a"] (by decide) (by decide)

/-! ## Claim C10 -/

/-- C10: every append to an existing table also rebuilds the "converted"
sheet: the saved workbook holds exactly one sheet named "converted",
whose grid is the projection of the hard-coded 28-token layout over the
first sheet (after the row append); the new-file invocation writes only
the header and first row and performs no projection (no "converted"
sheet). -/
theorem save_row_projection_side_effect (data : ResultRecord) (name : String)
    (rows : Grid) (rest : Workbook) (hname : name ≠ "converted")
    (hc : countNamed rest "converted" ≤ 1) :
    lookupSheet (save_dict_to_excel_row data (some ((name, rows) :: rest)))
        "converted"
      = some (projectGrid columnRefs28 (appendRowToSheet data rows))
    ∧ countNamed (save_dict_to_excel_row data (some ((name, rows) :: rest)))
        "converted" = 1
    ∧ columnRefs28.length = 28
    ∧ countNamed (save_dict_to_excel_row data none) "converted" = 0 := by
  have hb : (name == "converted") = false := beq_eq_false_iff_ne.mpr hname
  refine ⟨lookupSheet_projectConverted name _ rest columnRefs28 hb hc,
    countNamed_projectConverted name _ rest columnRefs28 hb hc, by decide, ?_⟩
  simp [save_dict_to_excel_row, countNamed]

theorem save_row_projection_side_effect_witness :
    lookupSheet (save_dict_to_excel_row [("a", some "1")]
        (some [("Sheet", [[some "a"], [some "0"]])])) "converted"
      = some (projectGrid columnRefs28
          (appendRowToSheet [("a", some "1")] [[some "a"], [some "0"]]))
    ∧ countNamed (save_dict_to_excel_row [("a", some "1")]
        (some [("Sheet", [[some "a"], [some "0"]])])) "converted" = 1
    ∧ columnRefs28.length = 28
    ∧ countNamed (save_dict_to_excel_row [("a", some "1")] none) "converted" = 0 :=
  save_row_projection_side_effect [("a", some "1")] "Sheet"
    [[some "a"], [some "0"]] [] (by decide) (by decide)

/-! ## Pipeline traces: session-state handling (claim C3) -/

theorem amazonProcess_filter_session (od : String) (k : Nat)
    (urls : List (String × AmazonOutcome)) :
    ((amazonProcess od k urls).2).filter isSessionEvent = [] := by
  induction urls generalizing k with
  | nil => simp [amazonProcess]
  | cons u rest ih =>
    obtain ⟨url, oc⟩ := u
    cases oc <;>
      simp [amazonProcess, amazonUrlEvents, isSessionEvent, List.filter_append, ih]

theorem bestbuyProcess_filter_session (od : String) (k : Nat)
    (urls : List (String × BestBuyOutcome)) :
    ((bestbuyProcess od k urls).2).filter isSessionEvent = [] := by
  induction urls generalizing k with
  | nil => simp [bestbuyProcess]
  | cons u rest ih =>
    obtain ⟨url, oc⟩ := u
    cases oc <;>
      simp [bestbuyProcess, bestbuyUrlEvents, isSessionEvent, List.filter_append, ih]

theorem samsungProcess_filter_session (od : String) (k : Nat)
    (urls : List (String × SamsungOutcome)) :
    ((samsungProcess od k urls).2).filter isSessionEvent = [] := by
  induction urls generalizing k with
  | nil => simp [samsungProcess]
  | cons u rest ih =>
    obtain ⟨url, oc⟩ := u
    cases oc <;>
      simp [samsungProcess, samsungUrlEvents, isSessionEvent, List.filter_append, ih]

/-- C3 (amended): the Amazon and BestBuy pipelines load session state at
start exactly when the session file exists and persist it exactly once,
as the last event of the run, after all URLs; the Samsung pipeline's
session handling is disabled in the source — its trace contains no
session events at all. -/
theorem session_persistence_per_pipeline
    (amUrls : List (String × AmazonOutcome))
    (bbUrls : List (String × BestBuyOutcome))
    (samUrls : List (String × SamsungOutcome))
    (od cfA cfB cfS : String) (eA eB eS : Bool) :
    ((save_amazon_htmls amUrls od cfA eA).2).filter isSessionEvent
      = (if eA then [Event.loadSession cfA] else []) ++ [Event.saveSession cfA]
    ∧ ((save_amazon_htmls amUrls od cfA eA).2).getLast?
      = some (Event.saveSession cfA)
    ∧ ((save_bestbuy_htmls bbUrls od cfB eB).2).filter isSessionEvent
      = (if eB then [Event.loadSession cfB] else []) ++ [Event.saveSession cfB]
    ∧ ((save_bestbuy_htmls bbUrls od cfB eB).2).getLast?
      = some (Event.saveSession cfB)
    ∧ ((save_samsung_htmls samUrls od cfS eS).2).filter isSessionEvent = [] := by
  refine ⟨?_, ?_, ?_, ?_, ?_⟩
  · unfold save_amazon_htmls
    cases eA <;>
      simp [List.filter_append, amazonProcess_filter_session, isSessionEvent]
  · unfold save_amazon_htmls
    exact List.getLast?_concat _
  · unfold save_bestbuy_htmls
    cases eB <;>
      simp [List.filter_append, bestbuyProcess_filter_session, isSessionEvent]
  · unfold save_bestbuy_htmls
    exact List.getLast?_concat _
  · unfold save_samsung_htmls
    exact samsungProcess_filter_session od 1 samUrls

/-- C3 counterexample: a Samsung run (here one URL whose `#device_info`
wait times out) performs zero session-state writes, refuting "persisted
to that site's session file exactly once at the end of the run" for the
Samsung pipeline. -/
theorem session_persistence_counterexample :
    ¬ ((((save_samsung_htmls
        [("https://s.com/sku-sm-1/", SamsungOutcome.noDeviceInfo)]
        "outputs" "samsung_cookies.json" true).2).filter isSessionSave).length
      = 1) := by decide

/-! ## Samsung partial records (claim C4) -/

theorem samsungProcess_records_getElem? (od : String)
    (urls : List (String × SamsungOutcome)) (k i : Nat) :
    ((samsungProcess od k urls).1)[i]?
      = (urls[i]?).map (fun p => samsungRecord od (k + i) p.1 p.2) := by
  induction urls generalizing k i with
  | nil => simp [samsungProcess]
  | cons u rest ih =>
    obtain ⟨url, oc⟩ := u
    cases i with
    | zero => simp [samsungProcess]
    | succ j =>
      have harith : k + 1 + j = k + (j + 1) := by omega
      simp only [samsungProcess, List.getElem?_cons_succ, ih, harith]

/-- C4 (amended): a Samsung URL whose `#device_info` wait times out gets
a record with status `partial: no device_info`, a null price, a non-null
file reference, and — unlike the claim's "identifier null" — a sku
extracted from the URL itself (null only when the URL has no
`sku-` pattern). -/
theorem samsung_partial_record (od cf : String) (e : Bool)
    (urls : List (String × SamsungOutcome)) (i : Nat) (url : String)
    (h : urls[i]? = some (url, SamsungOutcome.noDeviceInfo)) :
    ((save_samsung_htmls urls od cf e).1)[i]?
      = some [("url", some url),
              ("file", some (samsungFileName od (i + 1) url)),
              ("price", none),
              ("sku", extract_sku_from_url url),
              ("status", some "partial: no device_info")] := by
  show ((samsungProcess od 1 urls).1)[i]? = _
  rw [samsungProcess_records_getElem? od urls 1 i, h]
  simp [samsungRecord, Nat.add_comm]

theorem samsung_partial_record_witness :
    ((save_samsung_htmls [("https://s.com/sku-sm-1/", SamsungOutcome.noDeviceInfo)]
        "outputs" "samsung_cookies.json" false).1)[0]?
      = some [("url", some "https://s.com/sku-sm-1/"),
              ("file", some (samsungFileName "outputs" 1 "https://s.com/sku-sm-1/")),
              ("price", none),
              ("sku", extract_sku_from_url "https://s.com/sku-sm-1/"),
              ("status", some "partial: no device_info")] :=
  samsung_partial_record "outputs" "samsung_cookies.json" false
    [("https://s.com/sku-sm-1/", SamsungOutcome.noDeviceInfo)] 0
    "https://s.com/sku-sm-1/" rfl

/-- C4 counterexample: for a timed-out Samsung URL containing a sku
pattern, the record's status is `partial: no device_info` but its sku
field is `sm-f966udbexaa`, not null — the claim's "price and identifier
fields are both null" fails on the identifier. -/
theorem samsung_partial_record_counterexample :
    dictGet (((save_samsung_htmls
        [("https://s.com/buy/sku-sm-f966udbexaa/", SamsungOutcome.noDeviceInfo)]
        "outputs" "samsung_cookies.json" false).1).headD []) "status"
      = some "partial: no device_info"
    ∧ dictGet (((save_samsung_htmls
        [("https://s.com/buy/sku-sm-f966udbexaa/", SamsungOutcome.noDeviceInfo)]
        "outputs" "samsung_cookies.json" false).1).headD []) "sku"
      = some "sm-f966udbexaa" := by decide

/-! ## Missing-document extraction (claim C5) -/

/-- C5 counterexample: the BestBuy extractor invoked on an absent path
yields the sentinel string "Price not found", not null. -/
theorem parse_missing_counterexample :
    (parse_bestbuy_html none).1 = some "Price not found"
    ∧ (parse_bestbuy_html none).1 ≠ none := by decide

/-- C5 (amended): on an absent document file the Amazon extractor yields
null for both fields and the Samsung price extractor yields null (its
identifier is URL-derived, not document-derived), but the BestBuy
extractor yields its literal sentinel strings instead of null; none of
the three raises. -/
theorem parse_missing_document :
    parse_amazon_html none = (none, none)
    ∧ parse_bestbuy_html none
      = (some "Price not found", some "Model number not found")
    ∧ extract_price none = none := by decide

/-! ## Flat run-record key shape (claim C6) -/

/-- C6 counterexample: with one ok-record and one error-record per site,
the flattened run record has 30 non-timestamp keys (five fields per
record), not 6. -/
theorem flatten_key_count_counterexample :
    ¬ ((((flattenResults "2026-01-01T00:00:00"
        (save_amazon_htmls
          [("a1", AmazonOutcome.ok ⟨some "42", some "99", some "$",
              some (some "SM-A")⟩),
           ("a2", AmazonOutcome.err "nav")]
          "outputs" "amazon_cookies.json" false).1
        (save_bestbuy_htmls
          [("b1", BestBuyOutcome.ok ⟨some "$999.99", some "Model: SM-B"⟩),
           ("b2", BestBuyOutcome.err "nav")]
          "outputs" "bestbuy_cookies.json" false).1
        (save_samsung_htmls
          [("s1", SamsungOutcome.ok ⟨some [⟨some "true", "512GB", "$1,299.99"⟩]⟩),
           ("s2", SamsungOutcome.err "nav")]
          "outputs" "samsung_cookies.json" false).1).map
        Prod.fst).filter (fun k => !(k == "run_timestamp"))).length = 6) := by
  decide

/-- C6 (amended): with one ok-record and one error-record per site
(six records), the flattened run record's keys are `run_timestamp`
followed by exactly 30 keys of the form `<site>_<index>_<field>`
(five fields per record). -/
theorem flatten_key_shape (ts u1 u2 u3 u4 u5 u6 m1 m2 m3 od cfa cfb cfs : String)
    (b1 b2 b3 : Bool) (d1 : AmazonDoc) (d2 : BestBuyDoc) (d3 : SamsungDoc) :
    (flattenResults ts
        (save_amazon_htmls [(u1, AmazonOutcome.ok d1), (u2, AmazonOutcome.err m1)]
          od cfa b1).1
        (save_bestbuy_htmls [(u3, BestBuyOutcome.ok d2), (u4, BestBuyOutcome.err m2)]
          od cfb b2).1
        (save_samsung_htmls [(u5, SamsungOutcome.ok d3), (u6, SamsungOutcome.err m3)]
          od cfs b3).1).map Prod.fst
      = ["run_timestamp",
         "amazon_1_url", "amazon_1_file", "amazon_1_price", "amazon_1_model",
         "amazon_1_status",
         "amazon_2_url", "amazon_2_file", "amazon_2_price", "amazon_2_model",
         "amazon_2_status",
         "bestbuy_1_url", "bestbuy_1_file", "bestbuy_1_price", "bestbuy_1_model",
         "bestbuy_1_status",
         "bestbuy_2_url", "bestbuy_2_file", "bestbuy_2_price", "bestbuy_2_model",
         "bestbuy_2_status",
         "samsung_1_url", "samsung_1_file", "samsung_1_price", "samsung_1_sku",
         "samsung_1_status",
         "samsung_2_url", "samsung_2_file", "samsung_2_price", "samsung_2_sku",
         "samsung_2_status"]
    ∧ (((flattenResults ts
        (save_amazon_htmls [(u1, AmazonOutcome.ok d1), (u2, AmazonOutcome.err m1)]
          od cfa b1).1
        (save_bestbuy_htmls [(u3, BestBuyOutcome.ok d2), (u4, BestBuyOutcome.err m2)]
          od cfb b2).1
        (save_samsung_htmls [(u5, SamsungOutcome.ok d3), (u6, SamsungOutcome.err m3)]
          od cfs b3).1).map Prod.fst).filter
        (fun k => !(k == "run_timestamp"))).length = 30 := by
  constructor <;> rfl

/-! ## Samsung line-preference lemmas (claim C8) -/

theorem matchPriceAt_head_dollar {cs : List Char} {pr : List Char × List Char}
    (h : matchPriceAt cs = some pr) : ∃ t, cs = '$' :: t := by
  cases cs with
  | nil => simp [matchPriceAt] at h
  | cons c t =>
    by_cases hc : c = '$'
    · exact ⟨t, by rw [hc]⟩
    · simp [matchPriceAt, hc] at h

theorem searchPriceAux_dollar :
    ∀ (fuel : Nat) (cs : List Char) (m : String),
      searchPriceAux fuel cs = some m → hasDollar cs = true := by
  intro fuel
  induction fuel with
  | zero =>
    intro cs m h
    simp [searchPriceAux] at h
  | succ f ih =>
    intro cs m h
    cases cs with
    | nil => simp [searchPriceAux] at h
    | cons c t =>
      unfold searchPriceAux at h
      cases hm : matchPriceAt (c :: t) with
      | some pr =>
        obtain ⟨t', ht⟩ := matchPriceAt_head_dollar hm
        simp [ht, hasDollar]
      | none =>
        rw [hm] at h
        have h' : searchPriceAux f t = some m := h
        have ht := ih t m h'
        simp [hasDollar] at ht ⊢
        exact Or.inr ht

theorem lineSelect_eq_none_of_not_qualifies {a : List Char}
    (hq : qualifiesLine a = false) : lineSelect a = none := by
  unfold lineSelect
  cases hd : hasDollar a <;> cases hw : wasIn a <;> simp [hd, hw]
  cases hs : searchPrice a with
  | none => rfl
  | some m =>
    exfalso
    unfold qualifiesLine at hq
    rw [hs, hw] at hq
    simp at hq

theorem findSome?_lineSelect_of_find? :
    ∀ (lines : List (List Char)) (l : List Char),
      lines.find? qualifiesLine = some l →
      lines.findSome? lineSelect = searchPrice l := by
  intro lines
  induction lines with
  | nil => intro l h; simp at h
  | cons a as ih =>
    intro l h
    cases hq : qualifiesLine a with
    | true =>
      rw [List.find?_cons_of_pos _ hq] at h
      injection h with h1
      subst h1
      have hand := hq
      unfold qualifiesLine at hand
      rw [Bool.and_eq_true] at hand
      obtain ⟨m, hme⟩ := Option.isSome_iff_exists.mp hand.1
      have hwas : wasIn a = false := by simpa using hand.2
      have hd : hasDollar a = true := searchPriceAux_dollar _ _ _ hme
      rw [List.findSome?_cons]
      unfold lineSelect
      rw [hd, hwas, hme]
      simp
    | false =>
      rw [List.find?_cons_of_neg _ (by simp [hq])] at h
      rw [List.findSome?_cons, lineSelect_eq_none_of_not_qualifies hq]
      exact ih l h

theorem findSome?_lineSelect_of_find?_none :
    ∀ (lines : List (List Char)),
      lines.find? qualifiesLine = none →
      lines.findSome? lineSelect = none := by
  intro lines
  induction lines with
  | nil => intro h; simp
  | cons a as ih =>
    intro h
    rw [List.find?_eq_none] at h
    have hq : qualifiesLine a = false := by
      have := h a (List.mem_cons_self a as)
      simpa using this
    rw [List.findSome?_cons, lineSelect_eq_none_of_not_qualifies hq]
    exact ih (by
      rw [List.find?_eq_none]
      intro x hx
      exact h x (List.mem_cons_of_mem a hx))

/-- C8: within the chosen radio option's text, the extractor returns the
dollar amount of the first line that holds a full dollar-amount match
and does not contain "was" (case-insensitive); when no line qualifies it
falls back to the last dollar amount found anywhere in the text; in
particular, on the two lines `$1,299.99` and `was: $1,399.99` it returns
`$1,299.99`. -/
theorem samsung_price_line_preference (d : SamsungDoc)
    (radios : List RadioOption) (t : RadioOption) (l : List Char)
    (h1 : d.deviceInfo = some radios) (h2 : chooseRadio radios = some t) :
    ((splitNl t.textLines.data).find? qualifiesLine = some l →
      extract_price (some d) = searchPrice l)
    ∧ ((splitNl t.textLines.data).find? qualifiesLine = none →
      extract_price (some d) = (findAllPrice t.textLines.data).getLast?)
    ∧ extractFromText "$1,299.99\nwas: $1,399.99" = some "$1,299.99" := by
  have he : extract_price (some d) = extractFromText t.textLines := by
    simp [extract_price, extractPriceDoc, h1, h2]
  refine ⟨?_, ?_, by decide⟩
  · intro hf
    rw [he]
    simp only [extractFromText]
    rw [findSome?_lineSelect_of_find? _ l hf]
    have hq := List.find?_some hf
    unfold qualifiesLine at hq
    rw [Bool.and_eq_true] at hq
    obtain ⟨m, hme⟩ := Option.isSome_iff_exists.mp hq.1
    rw [hme]
  · intro hf
    rw [he]
    simp only [extractFromText]
    rw [findSome?_lineSelect_of_find?_none _ hf]

theorem samsung_price_line_preference_witness :
    extract_price (some ⟨some [⟨some "true", "512GB",
        "$1,299.99\nwas: $1,399.99"⟩]⟩)
      = searchPrice "$1,299.99".data :=
  (samsung_price_line_preference
    ⟨some [⟨some "true", "512GB", "$1,299.99\nwas: $1,399.99"⟩]⟩
    [⟨some "true", "512GB", "$1,299.99\nwas: $1,399.99"⟩]
    ⟨some "true", "512GB", "$1,299.99\nwas: $1,399.99"⟩
    "$1,299.99".data rfl rfl).1 (by decide)

/-! ## BestBuy sentinel convention (claim C9) -/

/-- C9: a BestBuy document with no customer-facing price marker yields
the literal "Price not found" (not null), a missing model marker yields
"Model number not found", while the Amazon and Samsung extractors use
null for missing fields. -/
theorem bestbuy_sentinel_convention (d d2 : BestBuyDoc) (d3 : AmazonDoc)
    (hp : d.priceElement = none) (hm : d2.modelElement = none)
    (ha : d3.priceWhole = none) :
    (parse_bestbuy_html (some d)).1 = some "Price not found"
    ∧ (parse_bestbuy_html (some d2)).2 = some "Model number not found"
    ∧ (parse_bestbuy_html (some d)).1 ≠ none
    ∧ parse_amazon_html none = (none, none)
    ∧ (parse_amazon_html (some d3)).1 = none
    ∧ extract_price none = none := by
  refine ⟨?_, ?_, ?_, rfl, ?_, rfl⟩
  · simp [parse_bestbuy_html, parseBestbuyDoc, hp]
  · simp [parse_bestbuy_html, parseBestbuyDoc, hm]
  · simp [parse_bestbuy_html, parseBestbuyDoc, hp]
  · simp [parse_amazon_html, parseAmazonDoc, ha]

theorem bestbuy_sentinel_convention_witness :
    (parse_bestbuy_html (some ⟨none, none⟩)).1 = some "Price not found"
    ∧ (parse_bestbuy_html (some ⟨none, none⟩)).2 = some "Model number not found"
    ∧ (parse_bestbuy_html (some ⟨none, none⟩)).1 ≠ none
    ∧ parse_amazon_html none = (none, none)
    ∧ (parse_amazon_html (some ⟨none, some "99", some "$", none⟩)).1 = none
    ∧ extract_price none = none :=
  bestbuy_sentinel_convention ⟨none, none⟩ ⟨none, none⟩
    ⟨none, some "99", some "$", none⟩ rfl rfl rfl

end Scraper
